import Mathlib

/-!
Verification of the AI inpainter repository: a shallow embedding of the
Model Gateway (src/services/gemini.ts and its duplicate variant in
src/unnamed/part_000), the Application Controller (src/App.tsx) and the
Mask Canvas Editor (the MaskCanvas component), together with theorems
settling the specification's claims about them.

The external generative-model client (`GoogleGenAI.models.generateContent`)
is not part of the repository; it is represented by an abstract `Oracle`
taking the configured credential and the request the code builds.  All
JavaScript string/option truthiness that the source relies on (`!apiKey`,
`a || b`, `response.text || fallback`) is embedded explicitly.
-/

/-- JavaScript truthiness of a `string | undefined | null` value:
falsy exactly when it is absent or the empty string. -/
def jsFalsy : Option String → Bool
  | none => true
  | some s => s == ""

/-- JavaScript `a || b` where `a : string | null` and `b : string`:
yields `b` when `a` is absent or empty. -/
def jsStrOr (a : Option String) (b : String) : String :=
  match a with
  | none => b
  | some s => if s == "" then b else s

/-- JavaScript `t || fallback` for the response's optional `text` field. -/
def jsTextOr (t : Option String) (fallback : String) : String :=
  match t with
  | none => fallback
  | some s => if s == "" then fallback else s

/-- JavaScript `err.message || fallback` in the inpainting catch block:
the fallback replaces an empty message only. -/
def jsMessageOr (e fallback : String) : String :=
  if e == "" then fallback else e

/-- A word character of the JavaScript regular expression class `\w`. -/
def isWordChar (c : Char) : Bool := c.isAlphanum || c == '_'

/-- `base64Image.replace(/^data:image\x5c\x2fw+;base64,/, "")`: strips a
data-URI head `data:image/<word-chars>;base64,` when the string starts with
one, and returns the string unchanged otherwise.  (The regex is anchored, and
since `;` is not a word character the greedy `w+` run is exactly the maximal
run of word characters after `data:image/`.) -/
def stripDataUri (s : String) : String :=
  let cs := s.data
  if cs.take 11 == "data:image/".data then
    let rest := cs.drop 11
    let run := rest.takeWhile isWordChar
    let after := rest.drop run.length
    if run != [] && after.take 8 == ";base64,".data then String.mk (after.drop 8)
    else s
  else s

/-- `const MODEL_TEXT = 'gemini-3-flash-preview'` (identical in both variants). -/
def MODEL_TEXT : String := "gemini-3-flash-preview"

/-- `const MODEL_IMAGE = 'gemini-2.5-flash-image'` (identical in both variants). -/
def MODEL_IMAGE : String := "gemini-2.5-flash-image"

/-- The request each gateway function hands to `ai.models.generateContent`:
the chosen model, one inline-data part (base64 payload and MIME type) and one
text part. -/
structure GenRequest where
  model : String
  imageData : String
  mimeType : String
  text : String
deriving DecidableEq, Repr

/-- `part.inlineData` of a response part. -/
structure InlineData where
  data : String
deriving DecidableEq, Repr

/-- A part of a response candidate's content. -/
structure RespPart where
  inlineData : Option InlineData
deriving DecidableEq, Repr

/-- `candidate.content` of a response candidate. -/
structure Content where
  parts : List RespPart
deriving DecidableEq, Repr

/-- A candidate of a `GenerateContentResponse`. -/
structure Candidate where
  content : Option Content
deriving DecidableEq, Repr

/-- The shape of a `GenerateContentResponse` as the source reads it: the
optional candidate list and the SDK's `.text` accessor. -/
structure GenResponse where
  candidates : List Candidate
  text : Option String
deriving DecidableEq, Repr

/-- The external client: `ai.models.generateContent` on a client constructed
with the given credential (`process.env.API_KEY`, possibly absent).  A call
either errors with a message or returns a response. -/
def Oracle : Type := Option String → GenRequest → Except String GenResponse

/-- Modelled from the spec: the external GoogleGenAI client is not part of
this repository; per the spec a Gateway call with no configured credential is
fatal (MissingCredential), i.e. every call made with an absent key fails. -/
def credentialEnforcing (oracle : Oracle) : Prop :=
  ∀ req : GenRequest, ∃ e : String, oracle none req = Except.error e

/-- The instruction template of `getPromptSuggestion` (byte-identical in
src/services/gemini.ts and src/unnamed/part_000). -/
def suggestionInstruction : String :=
  "Analyze this image. It is an empty interior scene. \n          Generate a high-quality inpainting prompt to add life to this specific scene.\n          Focus on adding people naturally seated or standing in logical places.\n          \n          Format your response EXACTLY like this:\n          \n          Inpainting task: [Detailed description of who to add and what they are doing].\n          \n          PEOPLE DETAILS: [Age, ethnicity, clothing style].\n          \n          TECHNICAL REQUIREMENTS: Photorealistic, correct scale, proper shadows.\n          \n          ABSOLUTE DO NOT TOUCH: [List specific architectural elements to preserve]."

/-- The instruction template of `analyzeResultForErrors` (byte-identical in
src/services/gemini.ts and src/unnamed/part_000). -/
def analyzeInstruction : String :=
  "You are an AI quality assurance expert for image generation. \n          Look at this edited image. Check for \"rendering errors\" or \"AI hallucinations\" such as:\n          - Floating objects (plates, phones, limbs not touching surfaces).\n          - Distorted anatomy (extra fingers, weird faces).\n          - Lighting/Shadow mismatches (people without shadows or shadows in wrong direction).\n          - Perspective errors.\n          \n          Provide a NEW inpainting prompt specifically designed to FIX these errors while keeping the rest of the additions.\n          \n          Format: \n          Refinement task: [Specifically what to fix, e.g., 'Ensure the plate on the middle table is resting on the surface'].\n          TECHNICAL FIX: [Instructions for lighting/shadow correction]."

namespace gemini

/-- The request `getPromptSuggestion` builds: MODEL_TEXT, the cleaned base64
image as an `image/png` inline part, and the suggestion template. -/
def suggestRequest (cleanBase64 : String) : GenRequest :=
  { model := MODEL_TEXT, imageData := cleanBase64, mimeType := "image/png",
    text := suggestionInstruction }

/-- The request `analyzeResultForErrors` builds: only the cleaned RESULT
image is transmitted, with the analysis template. -/
def analyzeRequest (cleanResult : String) : GenRequest :=
  { model := MODEL_TEXT, imageData := cleanResult, mimeType := "image/png",
    text := analyzeInstruction }

/-- The request `processInpainting` builds: MODEL_IMAGE, the cleaned base64
image and the free-form prompt. -/
def inpaintRequest (cleanBase64 prompt : String) : GenRequest :=
  { model := MODEL_IMAGE, imageData := cleanBase64, mimeType := "image/png",
    text := prompt }

/-- `getPromptSuggestion` of src/services/gemini.ts: no credential check; the
client is built straight from `process.env.API_KEY`, the data-URI head is
stripped, one call is made, and `response.text || "Failed to generate
suggestion."` is returned.  The second component is the list of requests the
run issued. -/
def getPromptSuggestion (env : Option String) (oracle : Oracle)
    (base64Image : String) : Except String String × List GenRequest :=
  let cleanBase64 := stripDataUri base64Image
  let req := suggestRequest cleanBase64
  match oracle env req with
  | Except.error e => (Except.error e, [req])
  | Except.ok response =>
      (Except.ok (jsTextOr response.text "Failed to generate suggestion."), [req])

/-- `analyzeResultForErrors` of src/services/gemini.ts: the first argument
`originalBase64` is bound but never used; only the result image is cleaned
and transmitted, and `response.text || "No specific errors found. Try
refining the prompt manually."` is returned. -/
def analyzeResultForErrors (env : Option String) (oracle : Oracle)
    (originalBase64 resultBase64 : String) : Except String String × List GenRequest :=
  let cleanResult := stripDataUri resultBase64
  let req := analyzeRequest cleanResult
  match oracle env req with
  | Except.error e => (Except.error e, [req])
  | Except.ok response =>
      (Except.ok (jsTextOr response.text
        "No specific errors found. Try refining the prompt manually."), [req])

/-- The `for (const part of ...) if (part.inlineData) { resultUrl = ...;
break }` loop: `resultUrl` stays `""` until the first part carrying
`inlineData`, which sets it to the PNG data URI built from that payload. -/
def findInlineUrl : List RespPart → String
  | [] => ""
  | q :: rest =>
      match q.inlineData with
      | some d => "data:image/png;base64," ++ d.data
      | none => findInlineUrl rest

/-- The guarded access `response.candidates?.[0]?.content?.parts`: the parts
of the first candidate's content, or nothing when any link is absent (an
absent `parts` array and an empty one drive the loop identically). -/
def candParts (response : GenResponse) : List RespPart :=
  match response.candidates.head? with
  | some c =>
      match c.content with
      | some ct => ct.parts
      | none => []
  | none => []

/-- `resultUrl` after the candidate/part scan of `processInpainting`. -/
def extractResultUrl (response : GenResponse) : String :=
  findInlineUrl (candParts response)

/-- `processInpainting` of src/services/gemini.ts: no credential check; the
call and the image extraction sit in a try/catch that rethrows
`err.message || "Failed to process inpainting."`.  An empty `resultUrl`
raises `The model did not return an edited image.` (whose non-empty message
the catch preserves). -/
def processInpainting (env : Option String) (oracle : Oracle)
    (base64Image prompt : String) : Except String String × List GenRequest :=
  let cleanBase64 := stripDataUri base64Image
  let req := inpaintRequest cleanBase64 prompt
  match oracle env req with
  | Except.error e => (Except.error (jsMessageOr e "Failed to process inpainting."), [req])
  | Except.ok response =>
      let resultUrl := extractResultUrl response
      if resultUrl == "" then
        (Except.error "The model did not return an edited image.", [req])
      else (Except.ok resultUrl, [req])

end gemini

namespace part000

/-- `getPromptSuggestion` of src/unnamed/part_000: identical to the
src/services/gemini.ts variant except for the guard
`if (!apiKey) throw new Error("API Key is missing.")` run before any call. -/
def getPromptSuggestion (env : Option String) (oracle : Oracle)
    (base64Image : String) : Except String String × List GenRequest :=
  if jsFalsy env then (Except.error "API Key is missing.", [])
  else
    let cleanBase64 := stripDataUri base64Image
    let req := gemini.suggestRequest cleanBase64
    match oracle env req with
    | Except.error e => (Except.error e, [req])
    | Except.ok response =>
        (Except.ok (jsTextOr response.text "Failed to generate suggestion."), [req])

/-- `analyzeResultForErrors` of src/unnamed/part_000: the gemini.ts variant
plus the `API Key is missing.` guard; `originalBase64` is again unused. -/
def analyzeResultForErrors (env : Option String) (oracle : Oracle)
    (originalBase64 resultBase64 : String) : Except String String × List GenRequest :=
  if jsFalsy env then (Except.error "API Key is missing.", [])
  else
    let cleanResult := stripDataUri resultBase64
    let req := gemini.analyzeRequest cleanResult
    match oracle env req with
    | Except.error e => (Except.error e, [req])
    | Except.ok response =>
        (Except.ok (jsTextOr response.text
          "No specific errors found. Try refining the prompt manually."), [req])

/-- `processInpainting` of src/unnamed/part_000: the gemini.ts variant plus
the `API Key is missing.` guard, which sits OUTSIDE the try/catch (its
message is not rerouted through `err.message || ...`). -/
def processInpainting (env : Option String) (oracle : Oracle)
    (base64Image prompt : String) : Except String String × List GenRequest :=
  if jsFalsy env then (Except.error "API Key is missing.", [])
  else
    let cleanBase64 := stripDataUri base64Image
    let req := gemini.inpaintRequest cleanBase64 prompt
    match oracle env req with
    | Except.error e => (Except.error (jsMessageOr e "Failed to process inpainting."), [req])
    | Except.ok response =>
        let resultUrl := gemini.extractResultUrl response
        if resultUrl == "" then
          (Except.error "The model did not return an edited image.", [req])
        else (Except.ok resultUrl, [req])

end part000

/-- The App state of src/App.tsx: `InpaintState` (types) extended with the
`isSuggesting` and `isAnalyzingResult` flags. -/
structure InpaintAppState where
  originalImage : Option String
  maskImage : Option String
  resultImage : Option String
  prompt : String
  isProcessing : Bool
  isSuggesting : Bool
  isAnalyzingResult : Bool
  error : Option String
deriving DecidableEq, Repr

/-- The initial `useState` value of the App (and the state `reset` installs). -/
def initialState : InpaintAppState :=
  { originalImage := none, maskImage := none, resultImage := none, prompt := "",
    isProcessing := false, isSuggesting := false, isAnalyzingResult := false,
    error := none }

/-- The fixed default prompt the upload handler substitutes when the
suggestion call fails. -/
def defaultPromptLiteral : String :=
  "Inpainting task: Add people to the empty spaces. Keep the architecture exactly as it is."

/-- `handleFileChange` of src/App.tsx, after the file has been read to
`base64`: the first `setState` keeps every field not listed (notably
`maskImage`), then the suggestion call resolves the prompt or the catch
branch installs the default prompt and the error message. -/
def handleFileChange (suggest : String → Except String String)
    (base64 : String) (s : InpaintAppState) : InpaintAppState :=
  let s1 := { s with originalImage := some base64, resultImage := none,
                     error := none, isSuggesting := true,
                     prompt := "Analyzing scene to suggest prompt..." }
  match suggest base64 with
  | Except.ok suggestion => { s1 with prompt := suggestion, isSuggesting := false }
  | Except.error _ =>
      { s1 with isSuggesting := false,
                prompt := defaultPromptLiteral,
                error := some "Could not auto-suggest prompt. Please write your own instructions." }

/-- `handleSmartFix` of src/App.tsx: guarded on both `resultImage` and
`originalImage` being truthy; on success installs the corrective prompt and
clears `resultImage`, on failure stores `err.message`. -/
def handleSmartFix (analyze : String → String → Except String String)
    (s : InpaintAppState) : InpaintAppState :=
  if jsFalsy s.resultImage || jsFalsy s.originalImage then s
  else
    let s1 := { s with isAnalyzingResult := true, error := none }
    match analyze (jsStrOr s.originalImage "") (jsStrOr s.resultImage "") with
    | Except.ok fixPrompt =>
        { s1 with prompt := fixPrompt, isAnalyzingResult := false, resultImage := none }
    | Except.error e => { s1 with error := some e, isAnalyzingResult := false }

/-- `handleInpaint` of src/App.tsx: guarded on `originalImage`; the target is
`state.maskImage || state.originalImage`; the second component records the
Gateway invocation `(image, prompt)` the run made, if any. -/
def handleInpaint (inpaint : String → String → Except String String)
    (s : InpaintAppState) : InpaintAppState × Option (String × String) :=
  if jsFalsy s.originalImage then (s, none)
  else
    let s1 := { s with isProcessing := true, error := none }
    let targetImage := jsStrOr s.maskImage (jsStrOr s.originalImage "")
    match inpaint targetImage s.prompt with
    | Except.ok result =>
        ({ s1 with resultImage := some result, isProcessing := false },
         some (targetImage, s.prompt))
    | Except.error e =>
        ({ s1 with error := some e, isProcessing := false },
         some (targetImage, s.prompt))

/-! The Mask Canvas Editor (the MaskCanvas component at the end of
src/services/gemini.ts).  Sizing: the display scale and the canvas and
flattened-composite dimensions, over exact rationals.  Compositing: the
overlay canvas as a pixel map of straight-alpha RGBA values, strokes as the
region the rasterizer covers at the brush width, `source-over` painting with
`rgba(255, 0, 0, 0.5)`, `destination-out` erasing with `rgba(0, 0, 0, 1)`,
and the end-of-stroke flattening that draws the photo first and the overlay
on top. -/

/-- `const scale = Math.min(maxWidth / img.width, 1)` of the init effect. -/
def displayScale (maxWidth imgWidth : ℚ) : ℚ := min (maxWidth / imgWidth) 1

/-- `const w = img.width * scale`: the drawing canvas width. -/
def canvasWidth (maxWidth imgWidth : ℚ) : ℚ := imgWidth * displayScale maxWidth imgWidth

/-- `const h = img.height * scale`: the drawing canvas height. -/
def canvasHeight (maxWidth imgWidth imgHeight : ℚ) : ℚ :=
  imgHeight * displayScale maxWidth imgWidth

/-- The flattened composite's dimensions: `stopDrawing` sizes `tempCanvas` to
`canvasRef.current.width/height`, i.e. to the scaled display dimensions. -/
def compositeSize (maxWidth imgWidth imgHeight : ℚ) : ℚ × ℚ :=
  (canvasWidth maxWidth imgWidth, canvasHeight maxWidth imgWidth imgHeight)

/-- An opaque pixel of the photo layer. -/
structure RGB where
  r : ℚ
  g : ℚ
  b : ℚ
deriving DecidableEq

/-- A straight-alpha pixel of the overlay canvas. -/
structure RGBA where
  r : ℚ
  g : ℚ
  b : ℚ
  a : ℚ
deriving DecidableEq

/-- The overlay canvas starts fully transparent. -/
def clearRGBA : RGBA := { r := 0, g := 0, b := 0, a := 0 }

/-- `ctx.strokeStyle = 'rgba(255, 0, 0, 0.5)'`: the DRAW-mode brush color. -/
def paintColor : RGBA := { r := 255, g := 0, b := 0, a := 1/2 }

/-- Canvas `source-over` of a straight-alpha source onto a straight-alpha
destination. -/
def sourceOver (src dst : RGBA) : RGBA :=
  let a := src.a + dst.a * (1 - src.a)
  if a = 0 then clearRGBA
  else
    { r := (src.r * src.a + dst.r * dst.a * (1 - src.a)) / a,
      g := (src.g * src.a + dst.g * dst.a * (1 - src.a)) / a,
      b := (src.b * src.a + dst.b * dst.a * (1 - src.a)) / a,
      a := a }

/-- Canvas `destination-out` with a source of alpha `sa`: the destination's
alpha is scaled by `1 - sa`, its color chans are untouched. -/
def destinationOut (sa : ℚ) (dst : RGBA) : RGBA :=
  { dst with a := dst.a * (1 - sa) }

/-- `enum BrushMode` of the types file. -/
inductive BrushMode where
  | DRAW
  | ERASE
deriving DecidableEq, Repr

/-- A pixel position of the drawing surface. -/
def Pos : Type := ℤ × ℤ

/-- The overlay canvas's pixel contents. -/
def Overlay : Type := Pos → RGBA

/-- A completed stroke: its mode and the pixel region the rasterizer covers
when the accumulated path is stroked at the brush width with round caps and
joins (the rasterizer itself is the browser's; the region is arbitrary). -/
structure Stroke where
  mode : BrushMode
  covers : Pos → Bool

/-- Rendering one stroke onto the overlay: DRAW composites `paintColor` with
`source-over` on covered pixels, ERASE applies `destination-out` with the
opaque eraser source (`rgba(0, 0, 0, 1)`, alpha 1); uncovered pixels keep
their contents. -/
def applyStroke (st : Stroke) (o : Overlay) : Overlay := fun p =>
  if st.covers p then
    match st.mode with
    | BrushMode.DRAW => sourceOver paintColor (o p)
    | BrushMode.ERASE => destinationOut 1 (o p)
  else o p

/-- The overlay after a session's stroke sequence. -/
def applyStrokes (strokes : List Stroke) (o : Overlay) : Overlay :=
  strokes.foldl (fun acc st => applyStroke st acc) o

/-- One pixel of the flattened composite `stopDrawing` emits: `tempCtx`
draws the opaque photo first, then the overlay canvas on top with the
default `source-over`, so the overlay is alpha-blended over the photo. -/
def flattenPixel (photo : Pos → RGB) (o : Overlay) (p : Pos) : RGB :=
  let s := o p
  { r := s.r * s.a + (photo p).r * (1 - s.a),
    g := s.g * s.a + (photo p).g * (1 - s.a),
    b := s.b * s.a + (photo p).b * (1 - s.a) }

/-! Concrete environments used to instantiate the theorems below. -/

/-- An external call that always fails with a network message. -/
def errOracle : Oracle := fun _ _ => Except.error "network failure"

/-- An external call that always returns a plain-text response. -/
def okTextOracle : Oracle := fun _ _ =>
  Except.ok { candidates := [], text := some "hello" }

/-- A response with one candidate whose single part has no inline image. -/
def respNoImg : GenResponse :=
  { candidates := [{ content := some { parts := [{ inlineData := none }] } }],
    text := none }

/-- A response whose second part carries an inline image payload. -/
def respWithImg : GenResponse :=
  { candidates := [{ content := some { parts :=
      [{ inlineData := none }, { inlineData := some { data := "QUJD" } }] } }],
    text := none }

/-- An external call whose response carries no inline image part. -/
def noImgOracle : Oracle := fun _ _ => Except.ok respNoImg

/-- An external call whose response carries an inline image in its second
part (the first part has none). -/
def imgOracle : Oracle := fun _ _ => Except.ok respWithImg

/-- A suggestion call that fails (a simulated network error). -/
def failSuggest : String → Except String String := fun _ => Except.error "Network error"

/-- A suggestion call that succeeds with a fixed text. -/
def okSuggest : String → Except String String := fun _ => Except.ok "T"

/-- An analysis call that succeeds with a fixed corrective prompt. -/
def okAnalyze : String → String → Except String String := fun _ _ => Except.ok "fix it"

/-- An analysis call that fails. -/
def errAnalyze : String → String → Except String String := fun _ _ =>
  Except.error "analysis failed"

/-- An inpaint call that succeeds with a fixed result. -/
def okInpaint : String → String → Except String String := fun _ _ => Except.ok "result"

/-! Theorems settling the claims. -/

/-- C3: each of the three Gateway operations, in both source variants, fails
when no API credential is configured in the environment, for every input
image and prompt — the part_000 variants through their explicit guard, the
gemini.ts variants because every external call made without a credential
fails (`credentialEnforcing`, modelled from the spec). -/
theorem gateway_fails_without_credential (oracle : Oracle)
    (h : credentialEnforcing oracle) (img orig res pr : String) :
    (∃ e, (gemini.getPromptSuggestion none oracle img).1 = Except.error e) ∧
    (∃ e, (gemini.analyzeResultForErrors none oracle orig res).1 = Except.error e) ∧
    (∃ e, (gemini.processInpainting none oracle img pr).1 = Except.error e) ∧
    (∃ e, (part000.getPromptSuggestion none oracle img).1 = Except.error e) ∧
    (∃ e, (part000.analyzeResultForErrors none oracle orig res).1 = Except.error e) ∧
    (∃ e, (part000.processInpainting none oracle img pr).1 = Except.error e) := by
  refine ⟨?_, ?_, ?_, ⟨"API Key is missing.", rfl⟩,
    ⟨"API Key is missing.", rfl⟩, ⟨"API Key is missing.", rfl⟩⟩
  · obtain ⟨e, he⟩ := h (gemini.suggestRequest (stripDataUri img))
    exact ⟨e, by simp [gemini.getPromptSuggestion, he]⟩
  · obtain ⟨e, he⟩ := h (gemini.analyzeRequest (stripDataUri res))
    exact ⟨e, by simp [gemini.analyzeResultForErrors, he]⟩
  · obtain ⟨e, he⟩ := h (gemini.inpaintRequest (stripDataUri img) pr)
    exact ⟨jsMessageOr e "Failed to process inpainting.",
      by simp [gemini.processInpainting, he]⟩

/-- Witness for C3 at the always-failing external call and concrete inputs. -/
theorem gateway_fails_without_credential_witness :
    (∃ e, (gemini.getPromptSuggestion none errOracle "img").1 = Except.error e) ∧
    (∃ e, (gemini.analyzeResultForErrors none errOracle "o" "r").1 = Except.error e) ∧
    (∃ e, (gemini.processInpainting none errOracle "img" "p").1 = Except.error e) ∧
    (∃ e, (part000.getPromptSuggestion none errOracle "img").1 = Except.error e) ∧
    (∃ e, (part000.analyzeResultForErrors none errOracle "o" "r").1 = Except.error e) ∧
    (∃ e, (part000.processInpainting none errOracle "img" "p").1 = Except.error e) :=
  gateway_fails_without_credential errOracle (fun _ => ⟨"network failure", rfl⟩)
    "img" "o" "r" "p"

/-- C4 (amended): whenever a credential is configured (a non-empty key), the
three Model Gateway functions of src/services/gemini.ts and their
counterparts in src/unnamed/part_000 are behaviorally equivalent — identical
results and identical issued requests, for every input, prompt and external
behavior. -/
theorem variants_equivalent_with_credential (env : Option String)
    (oracle : Oracle) (h : jsFalsy env = false) (img orig res pr : String) :
    gemini.getPromptSuggestion env oracle img =
      part000.getPromptSuggestion env oracle img ∧
    gemini.analyzeResultForErrors env oracle orig res =
      part000.analyzeResultForErrors env oracle orig res ∧
    gemini.processInpainting env oracle img pr =
      part000.processInpainting env oracle img pr := by
  refine ⟨?_, ?_, ?_⟩ <;>
    simp [gemini.getPromptSuggestion, part000.getPromptSuggestion,
      gemini.analyzeResultForErrors, part000.analyzeResultForErrors,
      gemini.processInpainting, part000.processInpainting, h]

/-- Witness for C4 at a concrete configured key, external call and inputs. -/
theorem variants_equivalent_with_credential_witness :
    jsFalsy (some "key") = false ∧
    gemini.getPromptSuggestion (some "key") okTextOracle "img" =
      part000.getPromptSuggestion (some "key") okTextOracle "img" :=
  ⟨by decide,
   (variants_equivalent_with_credential (some "key") okTextOracle (by decide)
     "img" "o" "r" "p").1⟩

/-- Counterexample to C4 as stated: with no credential configured the
variants do NOT fail in the same way — the gemini.ts variant issues the
external request and surfaces its error, while the part_000 variant fails
fast with `API Key is missing.` and issues no request. -/
theorem variants_differ_without_credential :
    (gemini.getPromptSuggestion none errOracle "img").1 =
      Except.error "network failure" ∧
    (part000.getPromptSuggestion none errOracle "img").1 =
      Except.error "API Key is missing." ∧
    (gemini.getPromptSuggestion none errOracle "img").2.length = 1 ∧
    (part000.getPromptSuggestion none errOracle "img").2.length = 0 ∧
    (gemini.getPromptSuggestion none errOracle "img").1 ≠
      (part000.getPromptSuggestion none errOracle "img").1 := by
  refine ⟨rfl, rfl, rfl, rfl, ?_⟩
  have h1 : (gemini.getPromptSuggestion none errOracle "img").1 =
      Except.error "network failure" := rfl
  have h2 : (part000.getPromptSuggestion none errOracle "img").1 =
      Except.error "API Key is missing." := rfl
  rw [h1, h2]
  simp only [ne_eq, Except.error.injEq]
  decide

/-- C10: `analyzeResultForErrors` is observationally independent of its
first argument in both variants: for any two original images and a fixed
result image it returns the same outcome and issues the identical request
(which transmits only the result image). -/
theorem analyze_ignores_original (env : Option String) (oracle : Oracle)
    (o1 o2 r : String) :
    gemini.analyzeResultForErrors env oracle o1 r =
      gemini.analyzeResultForErrors env oracle o2 r ∧
    part000.analyzeResultForErrors env oracle o1 r =
      part000.analyzeResultForErrors env oracle o2 r :=
  ⟨rfl, rfl⟩

/-- C2 (code bug): the upload handler does not reset the whole session — a
`maskImage` composite left over from a previous photo survives the new
upload unchanged, so a later ApplyUpdate can send the stale composite of the
old photo to the Gateway. -/
theorem upload_keeps_stale_mask :
    (handleFileChange okSuggest "newPhoto"
      { initialState with originalImage := some "oldPhoto",
                          maskImage := some "oldComposite" }).maskImage =
      some "oldComposite" := rfl

/-- C9: whenever the suggestion call fails during an upload, the handler
installs the fixed default prompt literal, a non-empty user-facing error
message, and clears the suggesting flag. -/
theorem upload_failure_installs_default_prompt (s : InpaintAppState)
    (suggest : String → Except String String) (b e : String)
    (h : suggest b = Except.error e) :
    (handleFileChange suggest b s).prompt = defaultPromptLiteral ∧
    (handleFileChange suggest b s).error =
      some "Could not auto-suggest prompt. Please write your own instructions." ∧
    ("Could not auto-suggest prompt. Please write your own instructions." : String) ≠ "" ∧
    (handleFileChange suggest b s).isSuggesting = false := by
  unfold handleFileChange
  rw [h]
  exact ⟨rfl, rfl, by decide, rfl⟩

/-- Witness for C9 at a concrete failing suggestion call. -/
theorem upload_failure_installs_default_prompt_witness :
    (handleFileChange failSuggest "img" initialState).prompt = defaultPromptLiteral ∧
    (handleFileChange failSuggest "img" initialState).error =
      some "Could not auto-suggest prompt. Please write your own instructions." ∧
    ("Could not auto-suggest prompt. Please write your own instructions." : String) ≠ "" ∧
    (handleFileChange failSuggest "img" initialState).isSuggesting = false :=
  upload_failure_installs_default_prompt initialState failSuggest "img" "Network error" rfl

/-- C7: SmartFix never changes `originalImage`; on a successful analysis it
installs the corrective prompt and clears `resultImage`; on a failed
analysis it leaves `resultImage` (and every field other than the error
message and the analyzing flag) untouched. -/
theorem smartfix_frame (s : InpaintAppState)
    (analyze : String → String → Except String String) :
    (handleSmartFix analyze s).originalImage = s.originalImage ∧
    (∀ r o t, s.resultImage = some r → r ≠ "" → s.originalImage = some o → o ≠ "" →
      analyze o r = Except.ok t →
      (handleSmartFix analyze s).prompt = t ∧
      (handleSmartFix analyze s).resultImage = none) ∧
    (∀ r o e, s.resultImage = some r → r ≠ "" → s.originalImage = some o → o ≠ "" →
      analyze o r = Except.error e →
      (handleSmartFix analyze s).resultImage = s.resultImage ∧
      (handleSmartFix analyze s).error = some e ∧
      (handleSmartFix analyze s).isAnalyzingResult = false ∧
      (handleSmartFix analyze s).prompt = s.prompt ∧
      (handleSmartFix analyze s).maskImage = s.maskImage ∧
      (handleSmartFix analyze s).isProcessing = s.isProcessing ∧
      (handleSmartFix analyze s).isSuggesting = s.isSuggesting) := by
  refine ⟨?_, ?_, ?_⟩
  · unfold handleSmartFix
    cases hg : (jsFalsy s.resultImage || jsFalsy s.originalImage)
    · cases hana : analyze (jsStrOr s.originalImage "") (jsStrOr s.resultImage "") <;>
        simp [hg, hana]
    · simp [hg]
  · intro r o t hr hrne ho hone hana
    have hgf : (jsFalsy s.resultImage || jsFalsy s.originalImage) = false := by
      simp only [hr, ho, jsFalsy, Bool.or_eq_false_iff, beq_eq_false_iff_ne, ne_eq]
      exact ⟨hrne, hone⟩
    have hor : jsStrOr s.originalImage "" = o := by
      simp [jsStrOr, ho, hone]
    have hrr : jsStrOr s.resultImage "" = r := by
      simp [jsStrOr, hr, hrne]
    unfold handleSmartFix
    rw [hgf, hor, hrr, hana]
    exact ⟨rfl, rfl⟩
  · intro r o e hr hrne ho hone hana
    have hgf : (jsFalsy s.resultImage || jsFalsy s.originalImage) = false := by
      simp only [hr, ho, jsFalsy, Bool.or_eq_false_iff, beq_eq_false_iff_ne, ne_eq]
      exact ⟨hrne, hone⟩
    have hor : jsStrOr s.originalImage "" = o := by
      simp [jsStrOr, ho, hone]
    have hrr : jsStrOr s.resultImage "" = r := by
      simp [jsStrOr, hr, hrne]
    unfold handleSmartFix
    rw [hgf, hor, hrr, hana]
    exact ⟨rfl, rfl, rfl, rfl, rfl, rfl, rfl⟩

/-- Witness for C7 at a concrete session with both images present, a
succeeding analysis and a failing one. -/
theorem smartfix_frame_witness :
    (handleSmartFix okAnalyze
      { initialState with originalImage := some "orig", resultImage := some "res" }).originalImage =
      some "orig" ∧
    (handleSmartFix okAnalyze
      { initialState with originalImage := some "orig", resultImage := some "res" }).prompt =
      "fix it" ∧
    (handleSmartFix okAnalyze
      { initialState with originalImage := some "orig", resultImage := some "res" }).resultImage =
      none ∧
    (handleSmartFix errAnalyze
      { initialState with originalImage := some "orig", resultImage := some "res" }).resultImage =
      some "res" := by
  have hok := smartfix_frame
    { initialState with originalImage := some "orig", resultImage := some "res" } okAnalyze
  have herr := smartfix_frame
    { initialState with originalImage := some "orig", resultImage := some "res" } errAnalyze
  have h1 := hok.2.1 "res" "orig" "fix it" rfl (by decide) rfl (by decide) rfl
  have h2 := herr.2.2 "res" "orig" "analysis failed" rfl (by decide) rfl (by decide) rfl
  exact ⟨hok.1, h1.1, h1.2, h2.1⟩

/-- C6: with no `originalImage` the inpaint handler changes nothing and
makes no Gateway call; with an `originalImage` and no stored mask composite
the Gateway is invoked with the original image itself, unmodified, and the
session's prompt. -/
theorem applyupdate_fallback (s : InpaintAppState)
    (inpaint : String → String → Except String String) :
    (s.originalImage = none → handleInpaint inpaint s = (s, none)) ∧
    (∀ img, s.originalImage = some img → img ≠ "" → s.maskImage = none →
      (handleInpaint inpaint s).2 = some (img, s.prompt)) := by
  constructor
  · intro h
    unfold handleInpaint
    rw [h]
    rfl
  · intro img ho hne hm
    have hf : jsFalsy s.originalImage = false := by
      simp only [ho, jsFalsy, beq_eq_false_iff_ne, ne_eq]
      exact hne
    have ht : jsStrOr s.maskImage (jsStrOr s.originalImage "") = img := by
      simp [jsStrOr, hm, ho, hne]
    unfold handleInpaint
    rw [hf, ht]
    cases hi : inpaint img s.prompt <;> simp [hi]

/-- Witness for C6 at the empty session (no image) and at a session holding
only an original image, with a concrete inpaint call. -/
theorem applyupdate_fallback_witness :
    handleInpaint okInpaint initialState = (initialState, none) ∧
    (handleInpaint okInpaint { initialState with originalImage := some "orig" }).2 =
      some ("orig", "") := by
  have h1 := applyupdate_fallback initialState okInpaint
  have h2 := applyupdate_fallback { initialState with originalImage := some "orig" } okInpaint
  exact ⟨h1.1 rfl, h2.2 "orig" rfl (by decide) rfl⟩

/-- The candidate/part scan yields the empty URL exactly on part lists with
no `inlineData`-bearing part. -/
theorem findInlineUrl_of_none (parts : List RespPart)
    (h : parts.find? (fun q => q.inlineData.isSome) = none) :
    gemini.findInlineUrl parts = "" := by
  induction parts with
  | nil => rfl
  | cons q rest ih =>
      cases hq : q.inlineData with
      | some d => simp [List.find?_cons, hq] at h
      | none =>
          simp only [List.find?_cons, hq, Option.isSome_none] at h
          simp only [gemini.findInlineUrl, hq]
          exact ih h

/-- The candidate/part scan yields the data URI of the FIRST
`inlineData`-bearing part when one exists. -/
theorem findInlineUrl_of_some (parts : List RespPart) (q : RespPart)
    (d : InlineData) (h : parts.find? (fun x => x.inlineData.isSome) = some q)
    (hd : q.inlineData = some d) :
    gemini.findInlineUrl parts = "data:image/png;base64," ++ d.data := by
  induction parts with
  | nil => simp [List.find?] at h
  | cons x rest ih =>
      cases hx : x.inlineData with
      | some d0 =>
          simp only [List.find?_cons, hx, Option.isSome_some] at h
          obtain rfl : x = q := by simpa using h
          rw [hx] at hd
          obtain rfl : d0 = d := by simpa using hd
          simp [gemini.findInlineUrl, hx]
      | none =>
          simp only [List.find?_cons, hx, Option.isSome_none] at h
          simp only [gemini.findInlineUrl, hx]
          exact ih h

/-- A PNG data URI is never the empty string, so `if (!resultUrl)` cannot
fire on an extracted payload. -/
theorem dataUrl_ne_empty (s : String) :
    (("data:image/png;base64," ++ s) == "") = false := by
  rw [beq_eq_false_iff_ne]
  intro h
  have hlen := congrArg String.length h
  rw [String.length_append] at hlen
  have h22 : ("data:image/png;base64," : String).length = 22 := rfl
  have h0 : ("" : String).length = 0 := rfl
  omega

/-- C8: when the external call succeeds, `processInpainting` returns the
first inline image payload of the response re-encoded as a PNG data URI, and
fails with `The model did not return an edited image.` exactly when the
response carries no inline payload; in that no-image case the App's inpaint
handler surfaces that error text and leaves `resultImage` unset. -/
theorem inpaint_first_inline_and_no_image (k : Option String) (oracle : Oracle)
    (b pr : String) (resp : GenResponse)
    (hcall : oracle k (gemini.inpaintRequest (stripDataUri b) pr) = Except.ok resp) :
    (∀ q d, (gemini.candParts resp).find? (fun x => x.inlineData.isSome) = some q →
      q.inlineData = some d →
      (gemini.processInpainting k oracle b pr).1 =
        Except.ok ("data:image/png;base64," ++ d.data)) ∧
    ((gemini.candParts resp).find? (fun x => x.inlineData.isSome) = none →
      (gemini.processInpainting k oracle b pr).1 =
        Except.error "The model did not return an edited image.") ∧
    (∀ s : InpaintAppState, s.originalImage = some b → b ≠ "" →
      s.maskImage = none → s.resultImage = none → s.prompt = pr →
      (gemini.candParts resp).find? (fun x => x.inlineData.isSome) = none →
      ((handleInpaint (fun i q => (gemini.processInpainting k oracle i q).1) s).1.error =
        some "The model did not return an edited image." ∧
       (handleInpaint (fun i q => (gemini.processInpainting k oracle i q).1) s).1.resultImage =
        none)) := by
  have hok : ∀ q d, (gemini.candParts resp).find? (fun x => x.inlineData.isSome) = some q →
      q.inlineData = some d →
      (gemini.processInpainting k oracle b pr).1 =
        Except.ok ("data:image/png;base64," ++ d.data) := by
    intro q d hfind hd
    have hurl : gemini.extractResultUrl resp = "data:image/png;base64," ++ d.data :=
      findInlineUrl_of_some _ q d hfind hd
    simp [gemini.processInpainting, hcall, hurl, dataUrl_ne_empty]
  have hnone : (gemini.candParts resp).find? (fun x => x.inlineData.isSome) = none →
      (gemini.processInpainting k oracle b pr).1 =
        Except.error "The model did not return an edited image." := by
    intro hfind
    have hurl : gemini.extractResultUrl resp = "" := findInlineUrl_of_none _ hfind
    simp [gemini.processInpainting, hcall, hurl]
  refine ⟨hok, hnone, ?_⟩
  intro s ho hne hm hr hp hfind
  have herr := hnone hfind
  have hf : jsFalsy s.originalImage = false := by
    simp only [ho, jsFalsy, beq_eq_false_iff_ne, ne_eq]
    exact hne
  have ht : jsStrOr s.maskImage (jsStrOr s.originalImage "") = b := by
    simp [jsStrOr, hm, ho, hne]
  simp [handleInpaint, hf, ht, hp, herr, hr]

/-- Witness for C8: a concrete response with an inline payload in its second
part yields that payload's data URI; a concrete response without one makes
the handler surface the fixed error and keep `resultImage` unset. -/
theorem inpaint_first_inline_and_no_image_witness :
    (gemini.processInpainting (some "key") imgOracle "img" "p").1 =
      Except.ok ("data:image/png;base64," ++ "QUJD") ∧
    (gemini.processInpainting (some "key") noImgOracle "img" "p").1 =
      Except.error "The model did not return an edited image." ∧
    (handleInpaint (fun i q => (gemini.processInpainting (some "key") noImgOracle i q).1)
      { initialState with originalImage := some "img", prompt := "p" }).1.error =
      some "The model did not return an edited image." ∧
    (handleInpaint (fun i q => (gemini.processInpainting (some "key") noImgOracle i q).1)
      { initialState with originalImage := some "img", prompt := "p" }).1.resultImage =
      none := by
  have himg := inpaint_first_inline_and_no_image (some "key") imgOracle "img" "p"
    respWithImg rfl
  have hno := inpaint_first_inline_and_no_image (some "key") noImgOracle "img" "p"
    respNoImg rfl
  have happ := hno.2.2 { initialState with originalImage := some "img", prompt := "p" }
    rfl (by decide) rfl rfl rfl (by decide)
  exact ⟨himg.1 { inlineData := some { data := "QUJD" } } { data := "QUJD" }
      (by decide) rfl, hno.2.1 (by decide), happ.1, happ.2⟩

/-- Flattening over a fully transparent overlay pixel reproduces the photo
pixel exactly. -/
theorem flatten_zero_alpha (photo : Pos → RGB) (o : Overlay) (p : Pos)
    (h : (o p).a = 0) : flattenPixel photo o p = photo p := by
  unfold flattenPixel
  rcases hpp : photo p with ⟨pr, pg, pb⟩
  simp only []
  rw [h]
  simp

/-- C5: for any stroke sequence drawn in a session, an ERASE stroke changes
the flattened composite only at the pixels it covers, and there it restores
exactly the original photo's pixel — erasing removes previously painted
overlay pixels, never pixels of the underlying photo. -/
theorem erase_restores_photo (strokes : List Stroke) (cov : Pos → Bool)
    (photo : Pos → RGB) (p : Pos) :
    flattenPixel photo
      (applyStrokes (strokes ++ [{ mode := BrushMode.ERASE, covers := cov }])
        (fun _ => clearRGBA)) p =
      (if cov p then photo p
       else flattenPixel photo (applyStrokes strokes (fun _ => clearRGBA)) p) := by
  unfold applyStrokes
  rw [List.foldl_append]
  simp only [List.foldl_cons, List.foldl_nil]
  by_cases h : cov p = true
  · rw [if_pos h]
    apply flatten_zero_alpha
    simp [applyStroke, h, destinationOut]
  · rw [if_neg h]
    have hb : cov p = false := by simpa using h
    have hsame : applyStroke { mode := BrushMode.ERASE, covers := cov }
        (List.foldl (fun acc st => applyStroke st acc) (fun _ => clearRGBA) strokes) p =
        (List.foldl (fun acc st => applyStroke st acc) (fun _ => clearRGBA) strokes) p := by
      simp [applyStroke, hb]
    unfold flattenPixel
    rw [hsame]

/-- C1 (amended): the flattened composite the editor emits has the SCALED
display dimensions `(w, h) = (nativeW, nativeH) * min(containerW / nativeW, 1)`;
these equal the native dimensions exactly when the container is at least as
wide as the image (scale 1), and are strictly smaller in width otherwise. -/
theorem composite_dims_follow_display_scale (maxW imgW imgH : ℚ)
    (h : 0 < imgW) :
    (imgW ≤ maxW → compositeSize maxW imgW imgH = (imgW, imgH)) ∧
    (maxW < imgW → compositeSize maxW imgW imgH = (maxW, imgH * (maxW / imgW))) := by
  constructor
  · intro hle
    have h1 : (1 : ℚ) ≤ maxW / imgW := (one_le_div h).mpr hle
    unfold compositeSize canvasWidth canvasHeight displayScale
    rw [min_eq_right h1]
    simp
  · intro hlt
    have h1 : maxW / imgW < 1 := (div_lt_one h).mpr hlt
    unfold compositeSize canvasWidth canvasHeight displayScale
    rw [min_eq_left h1.le]
    have hcan : imgW * (maxW / imgW) = maxW := by
      field_simp
    rw [hcan]

/-- Witness for C1's amended theorem at an 800-wide image in a 400-wide
container (scale one half). -/
theorem composite_dims_follow_display_scale_witness :
    (0 : ℚ) < 800 ∧ (400 : ℚ) < 800 ∧
    compositeSize 400 800 600 = (400, 600 * (400 / 800)) := by
  have h := composite_dims_follow_display_scale 400 800 600 (by norm_num)
  exact ⟨by norm_num, by norm_num, h.2 (by norm_num)⟩

/-- Counterexample to C1 as stated: with a 400-wide container and an
800 times 600 image, the display scale is one half and the emitted
composite's dimensions are 400 times 300, not the native 800 times 600. -/
theorem composite_not_native_when_scaled :
    compositeSize 400 800 600 ≠ (800, 600) := by
  unfold compositeSize canvasWidth canvasHeight displayScale
  rw [min_eq_left (by norm_num : (400 : ℚ) / 800 ≤ 1)]
  intro hcontra
  rw [Prod.mk.injEq] at hcontra
  have := hcontra.1
  norm_num at this
